import Mathlib

set_option maxRecDepth 16000
set_option autoImplicit false

/-!
Verification development for the tld-parser library (a read-path resolver for
an on-chain name service).  The Rust sources are shallowly embedded below:

* pure derivation code (`constants.rs`, `utils.rs`, `pda.rs`,
  `name_record_handler.rs`) becomes pure Lean functions;
* the fixed-offset binary decoders (`state/name_record_header.rs`,
  `state/nft_record.rs`) become functions on `List Nat` byte lists, with a
  `DecodeResult` distinguishing a clean format error from a Rust panic;
* the stateful resolver methods of `lib.rs` become functions over an explicit
  environment `Env` bundling the external ledger reader and the wall clock;
* the external cryptographic primitives (sha256 hashing and program-derived
  address search from the Solana SDK) are modelled, following the spec's
  boundary description, by a free term algebra `ByteStr` in which hashing and
  derivation are injective by construction.

Machine integers (`u64` expiry timestamps and lengths) are modelled as `Nat`;
the additions performed by the code (`time_now + grace_period`) cannot reach
`2^64` for wall-clock inputs, so wrap-around is left unmodelled.
-/

/-- Symbolic byte strings.  Every value the Rust code manipulates as raw bytes
(32-byte account addresses, seed literals, sha256 digests, seed lists handed
to the derivation routine) lives in this single free term algebra:

* `ofBase58 s` — a well-known key written in base58 in `constants.rs`;
* `ofBytes bs` — a key or buffer given by raw bytes (e.g. `Pubkey::default()`
  is 32 zero bytes, and decoded record fields are raw 32-byte slices);
* `lit s` — the UTF-8 bytes of a Rust string used as a seed literal;
* `hashOf p` — modelled from the spec: the sha256 digest of preimage `p`
  (`solana_sdk::hash::hashv`), deterministic and injective, represented by
  its preimage;
* `seedNil` / `seedCons` — a seed list, first-order encoded;
* `pda seeds program` — modelled from the spec:
  `Pubkey::find_program_address`, deterministic and injective in the pair of
  seed list and program identity.

Constructor distinctness models the spec's assumption that distinct inputs
give distinct digests / derived addresses (collisions are cryptographically
negligible), and `to_bytes` on a key is the identity at this level of
abstraction. -/
inductive ByteStr : Type where
  | ofBase58 (s : String)
  | ofBytes (bytes : List Nat)
  | lit (s : String)
  | hashOf (preimage : String)
  | seedNil
  | seedCons (s rest : ByteStr)
  | pda (seeds program : ByteStr)
deriving DecidableEq, Repr

/-- Account addresses are byte strings. -/
abbrev Pubkey := ByteStr

/-- Rust `Pubkey::default()`: the all-zero 32-byte address. -/
def ByteStr.defaultKey : Pubkey := .ofBytes (List.replicate 32 0)

/-- First-order encoding of a seed list as a `ByteStr` term. -/
def seedsOfList : List ByteStr → ByteStr
  | [] => .seedNil
  | s :: rest => .seedCons s (seedsOfList rest)

/-- Modelled from the spec: `Pubkey::find_program_address` (Solana SDK, not
part of this repository).  The spec describes it as a deterministic
derivation, injective across differing seeds or program identity, returning
the address plus a single disambiguating bump byte.  The bump is observed by
no claim and is abstracted as `0`. -/
def find_program_address (seeds : List ByteStr) (program_id : Pubkey) : Pubkey × Nat :=
  (.pda (seedsOfList seeds) program_id, 0)

/-- Constant `ANS_PROGRAM_ID` from `constants.rs`. -/
def ANS_PROGRAM_ID : Pubkey := .ofBase58 "ALTNSZ46uaAUU7XUV6awvdorLGqAsPwa9shm7h4uP2FK"

/-- Constant `TLD_HOUSE_PROGRAM_ID` from `constants.rs`. -/
def TLD_HOUSE_PROGRAM_ID : Pubkey := .ofBase58 "TLDHkysf5pCnKsVA4gXpNvmy7psXLPEu4LAdDJthT9S"

/-- Constant `ORIGIN_TLD_KEY` from `constants.rs`. -/
def ORIGIN_TLD_KEY : Pubkey := .ofBase58 "3mX9b4AZaQehNoQGfckVcmgmA6bkBoFcbLj9RMmMyNcU"

/-- Constant `NAME_HOUSE_PROGRAM_ID` from `constants.rs`. -/
def NAME_HOUSE_PROGRAM_ID : Pubkey := .ofBase58 "NH3uX6FtVE2fNREAioP7hm5RaozotZxeL6khU1EHx51"

/-- Constant `NameRecordHeader::HASH_PREFIX` from `state/name_record_header.rs`
(the domain-separation text prepended before hashing). -/
def HASH_PREFIX_STRING : String := "ALT Name Service"

/-- Function `get_hashed_name` from `utils.rs`: the sha256 digest of
`HASH_PREFIX + name`. -/
def get_hashed_name (name : String) : ByteStr :=
  .hashOf (HASH_PREFIX_STRING ++ name)

/-- Function `get_name_service_seeds_from_hashed_name` from `utils.rs`:
`[hashed_name, class_or_default, parent_or_default]` (the source takes
`to_bytes` of the keys, which is the identity in this model). -/
def get_name_service_seeds_from_hashed_name (hashed_name : ByteStr)
    (name_class_opt name_parent_opt : Option Pubkey) : List ByteStr :=
  let name_class := name_class_opt.getD ByteStr.defaultKey
  let name_parent := name_parent_opt.getD ByteStr.defaultKey
  [hashed_name, name_class, name_parent]

/-- Function `get_name_service_seeds_from_name` from `utils.rs`. -/
def get_name_service_seeds_from_name (name : String)
    (name_class_opt name_parent_opt : Option Pubkey) : List ByteStr :=
  let hashed_name := get_hashed_name name
  let name_class := name_class_opt.getD ByteStr.defaultKey
  let name_parent := name_parent_opt.getD ByteStr.defaultKey
  [hashed_name, name_class, name_parent]

/-- Function `find_name_account_from_hashed_name` from `pda.rs`. -/
def find_name_account_from_hashed_name (hashed_name : ByteStr)
    (name_class_opt name_parent_opt : Option Pubkey) : Pubkey × Nat :=
  find_program_address
    (get_name_service_seeds_from_hashed_name hashed_name name_class_opt name_parent_opt)
    ANS_PROGRAM_ID

/-- Function `find_name_account_from_name` from `pda.rs`. -/
def find_name_account_from_name (name : String)
    (name_class_opt name_parent_opt : Option Pubkey) : Pubkey × Nat :=
  find_program_address
    (get_name_service_seeds_from_name name name_class_opt name_parent_opt)
    ANS_PROGRAM_ID

/-- Function `get_name_parent_from_tld` from `utils.rs`: the name account of a
top-level suffix, rooted under `ORIGIN_TLD_KEY`. -/
def get_name_parent_from_tld (tld : String) : Pubkey :=
  let parent_hashed_name := get_hashed_name tld
  let parent_seeds :=
    get_name_service_seeds_from_hashed_name parent_hashed_name none (some ORIGIN_TLD_KEY)
  (find_program_address parent_seeds ANS_PROGRAM_ID).1

/-- Function `find_tld_house` from `pda.rs` (seed literal `PREFIX` is
`"tld_house"` in `constants.rs`). -/
def find_tld_house (tld : String) : Pubkey × Nat :=
  find_program_address [.lit "tld_house", .lit tld] TLD_HOUSE_PROGRAM_ID

/-- Function `find_name_house` from `pda.rs` (seed literal `NAME_HOUSE_PREFIX`
is `"name_house"` in `constants.rs`). -/
def find_name_house (tld_house : Pubkey) : Pubkey × Nat :=
  find_program_address [.lit "name_house", tld_house] NAME_HOUSE_PROGRAM_ID

/-- Function `find_nft_record` from `pda.rs` (seed literal `NFT_RECORD_PREFIX`
is `"nft_record"` in `constants.rs`); note the seed order: literal, name
house, name account, under the name-house program. -/
def find_nft_record (name_account name_house_account : Pubkey) : Pubkey × Nat :=
  find_program_address [.lit "nft_record", name_house_account, name_account]
    NAME_HOUSE_PROGRAM_ID

/-- Helper for `splitOnDot`: split a character list at every `'.'`. -/
def splitChars : List Char → List (List Char)
  | [] => [[]]
  | c :: rest =>
    let r := splitChars rest
    if c = '.' then [] :: r
    else
      match r with
      | [] => [[c]]
      | h :: t => (c :: h) :: t

/-- Modelled from the Rust standard library: `str::split('.').collect()`.
An empty input yields `[""]`; every `'.'` starts a new (possibly empty)
label; `splitChars` never returns `[]`. -/
def splitOnDot (s : String) : List String :=
  (splitChars s.data).map (fun l => String.mk l)

/-- Struct `DomainKeyResult` from `name_record_handler.rs`; `hashed` carries
the digest used for the leaf derivation. -/
structure DomainKeyResult where
  pubkey : Pubkey
  hashed : ByteStr
  is_sub : Bool
  parent : Option Pubkey
  is_sub_record : Bool
deriving DecidableEq, Repr

/-- Failure modes of `get_domain_key`.  In Rust both are process aborts, not
`Err` returns: `unsupportedDepth` models the explicit
`panic!("Invalid derivation input, found more than 4 level subdomain")`
(named `UnsupportedDepth` by the spec's error taxonomy), and
`indexOutOfBounds` models the slice-index panic raised when the code reads
`domain_tld_split[1]` on a split with fewer than two labels. -/
inductive DomainKeyError where
  | unsupportedDepth
  | indexOutOfBounds
deriving DecidableEq, Repr

/-- Function `_get_name_account` from `name_record_handler.rs`: hash the name
and derive its account, rooting parentless names under `ORIGIN_TLD_KEY`. -/
def _get_name_account (name : String) (parent : Option Pubkey) : Pubkey × ByteStr :=
  match parent with
  | none =>
    let hashed_parentless := get_hashed_name name
    ((find_name_account_from_hashed_name hashed_parentless none (some ORIGIN_TLD_KEY)).1,
      hashed_parentless)
  | some p =>
    let hashed := get_hashed_name name
    ((find_name_account_from_hashed_name hashed none (some p)).1, hashed)

/-- The fall-through tail of `get_domain_key` (lines 56-67 of
`name_record_handler.rs`): treat `split[0]` as the domain and `split[1]` as
the suffix and derive a plain domain key. -/
def regular_domain_result (domain tldLabel : String) : DomainKeyResult :=
  let tld_name := "." ++ tldLabel
  let parent_key_domain_account := (_get_name_account tld_name none).1
  let pair := _get_name_account domain (some parent_key_domain_account)
  { pubkey := pair.1, hashed := pair.2, is_sub := false, parent := none,
    is_sub_record := false }

/-- Function `get_domain_key` from `name_record_handler.rs`.  The Rust
function tests, in order: exactly 3 labels; exactly 4 labels with
`record = true`; more than 4 labels (explicit panic); and otherwise falls
through to the plain-domain tail, which reads `split[1]` and `split[0]` and
therefore index-panics on fewer than two labels.  The match below carries the
same disjoint cases: a 4-label split with `record = false` and a 2-label
split both reach the fall-through tail.  The function performs no ledger
access: derivation is purely local. -/
def get_domain_key (domain_tld : String) (record : Bool) :
    Except DomainKeyError DomainKeyResult :=
  match splitOnDot domain_tld with
  | [sub_domain, domain, tldLabel] =>
    let tld := "." ++ tldLabel
    let parent_key := (_get_name_account tld none).1
    let domain_key := (_get_name_account domain (some parent_key)).1
    let sub := (if record then "1" else "0") ++ sub_domain
    let pair := _get_name_account sub (some domain_key)
    .ok { pubkey := pair.1, hashed := pair.2, is_sub := true,
          parent := some domain_key, is_sub_record := false }
  | [multi_level_sub_domain, sub_domain, domain, tldLabel] =>
    if record then
      let tld := "." ++ tldLabel
      let parent_key := (_get_name_account tld none).1
      let domain_key := (_get_name_account domain (some parent_key)).1
      let sub_key := (_get_name_account ("\x00" ++ sub_domain) (some domain_key)).1
      let pair := _get_name_account ("1" ++ multi_level_sub_domain) (some sub_key)
      .ok { pubkey := pair.1, hashed := pair.2, is_sub := true,
            parent := some domain_key, is_sub_record := true }
    else
      .ok (regular_domain_result multi_level_sub_domain sub_domain)
  | _ :: _ :: _ :: _ :: _ :: _ => .error .unsupportedDepth
  | [domain, tldLabel] => .ok (regular_domain_result domain tldLabel)
  | [_] => .error .indexOutOfBounds
  | [] => .error .indexOutOfBounds

/-- Read exactly `n` bytes from the front of a buffer (borsh-style), or fail. -/
def readExact (n : Nat) (b : List Nat) : Option (List Nat × List Nat) :=
  if n ≤ b.length then some (b.take n, b.drop n) else none

/-- Little-endian bytes to a natural number (borsh `u32` / `u64`). -/
def leBytesToNat (bytes : List Nat) : Nat :=
  bytes.foldr (fun b acc => b + 256 * acc) 0

/-- Whether a byte is a UTF-8 continuation byte (`0x80..=0xBF`). -/
def isUtf8Cont (b : Nat) : Bool :=
  0x80 ≤ b && b ≤ 0xBF

/-- Modelled from the Rust standard library: `str::from_utf8` validity
(RFC 3629 well-formedness of a byte sequence). -/
def utf8Valid : List Nat → Bool
  | [] => true
  | b1 :: t1 =>
    if b1 ≤ 0x7F then utf8Valid t1
    else
      match t1 with
      | [] => false
      | b2 :: t2 =>
        if 0xC2 ≤ b1 ∧ b1 ≤ 0xDF then isUtf8Cont b2 && utf8Valid t2
        else
          match t2 with
          | [] => false
          | b3 :: t3 =>
            if b1 = 0xE0 then
              (0xA0 ≤ b2 && b2 ≤ 0xBF) && isUtf8Cont b3 && utf8Valid t3
            else if (0xE1 ≤ b1 ∧ b1 ≤ 0xEC) ∨ b1 = 0xEE ∨ b1 = 0xEF then
              isUtf8Cont b2 && isUtf8Cont b3 && utf8Valid t3
            else if b1 = 0xED then
              (0x80 ≤ b2 && b2 ≤ 0x9F) && isUtf8Cont b3 && utf8Valid t3
            else
              match t3 with
              | [] => false
              | b4 :: t4 =>
                if b1 = 0xF0 then
                  (0x90 ≤ b2 && b2 ≤ 0xBF) && isUtf8Cont b3 && isUtf8Cont b4 &&
                    utf8Valid t4
                else if 0xF1 ≤ b1 ∧ b1 ≤ 0xF3 then
                  isUtf8Cont b2 && isUtf8Cont b3 && isUtf8Cont b4 && utf8Valid t4
                else if b1 = 0xF4 then
                  (0x80 ≤ b2 && b2 ≤ 0x8F) && isUtf8Cont b3 && isUtf8Cont b4 &&
                    utf8Valid t4
                else false

/-- Result of running a Rust decoder: a value, a clean `Err` return
(`formatError`), or a process abort (`panicked` — slice-index or `unwrap`
panic, which unlike `Err` never reaches the caller as a value). -/
inductive DecodeResult (α : Type) where
  | ok (val : α)
  | formatError
  | panicked
deriving DecidableEq, Repr

/-- Struct `NameRecordHeader` from `state/name_record_header.rs`; `is_valid`
is part of the borsh layout but is recomputed by the read path. -/
structure NameRecordHeader where
  parent_name : Pubkey
  owner : Pubkey
  nclass : Pubkey
  expires_at : Nat
  is_valid : Bool
deriving DecidableEq, Repr

/-- Modelled from Rust's struct layout algorithm:
`std::mem::size_of::<NameRecordHeader>()`.  The payload is three 32-byte
arrays plus a `u64` plus a `bool` = 105 bytes, padded up to the `u64`
alignment of 8, hence 112. -/
def NameRecordHeader.size_of : Nat := 112

/-- Constant `NameRecordHeader::LEN = 8 + size_of::<NameRecordHeader>() + 80`. -/
def NameRecordHeader.LEN : Nat := 8 + NameRecordHeader.size_of + 80

/-- Borsh decode of a `bool`: one byte that must be 0 or 1. -/
def decodeBoolByte : List Nat → Option Bool
  | [0] => some false
  | [1] => some true
  | _ => none

/-- Borsh body of `NameRecordHeader` (the `AnchorDeserialize` derive):
sequential reads of three 32-byte keys, a little-endian `u64`, and a `bool`
whose byte must be 0 or 1; trailing bytes are permitted. -/
def NameRecordHeader.borshDeserialize (b : List Nat) : Option NameRecordHeader :=
  (readExact 32 b).bind fun (parent_name, b) =>
  (readExact 32 b).bind fun (owner, b) =>
  (readExact 32 b).bind fun (nclass, b) =>
  (readExact 8 b).bind fun (expires, b) =>
  (readExact 1 b).bind fun (validByte, _) =>
  (decodeBoolByte validByte).bind fun is_valid =>
  some ⟨.ofBytes parent_name, .ofBytes owner, .ofBytes nclass,
    leBytesToNat expires, is_valid⟩

/-- Function `NameRecordHeader::deserialize_name_record`: `&src[8..]` panics
when the slice is shorter than the 8-byte discriminator; otherwise a borsh
failure is returned as an `Err`. -/
def NameRecordHeader.deserialize_name_record (src : List Nat) :
    DecodeResult NameRecordHeader :=
  if src.length < 8 then .panicked
  else
    match NameRecordHeader.borshDeserialize (src.drop 8) with
    | some r => .ok r
    | none => .formatError

/-- Function `NameRecordHeader::deserialize_data_string`: slice from `LEN`,
read a 4-byte little-endian length, slice that many bytes, and decode UTF-8.
Every failure in this function is a panic (`&src[LEN..]`, `p[0..4]`,
`&p[4..4+len]` out of range, or `from_utf8(..).unwrap()`); no path returns a
format error.  The decoded Rust `String` is modelled by its UTF-8 bytes. -/
def NameRecordHeader.deserialize_data_string (src : List Nat) :
    DecodeResult (List Nat) :=
  if src.length < NameRecordHeader.LEN then .panicked
  else
    let p := src.drop NameRecordHeader.LEN
    if p.length < 4 then .panicked
    else
      let len := leBytesToNat (p.take 4)
      if p.length < 4 + len then .panicked
      else
        let bytes := (p.drop 4).take len
        if utf8Valid bytes then .ok bytes else .panicked

/-- Function `NameRecordHeader::deserialize_reverse_lookup_domain_name`:
slice `&src[LEN..src.len()]` (panics when the buffer is shorter than `LEN`)
and decode the whole remainder as UTF-8 (`unwrap` panics when invalid). -/
def NameRecordHeader.deserialize_reverse_lookup_domain_name (src : List Nat) :
    DecodeResult (List Nat) :=
  if src.length < NameRecordHeader.LEN then .panicked
  else
    let p := src.drop NameRecordHeader.LEN
    if utf8Valid p then .ok p else .panicked

/-- Enum `Tag` from `state/nft_record.rs`. -/
inductive Tag where
  | Uninitialized
  | ActiveRecord
  | InactiveRecord
deriving DecidableEq, Repr

/-- Struct `NftRecord` from `state/nft_record.rs`. -/
structure NftRecord where
  tag : Tag
  bump : Nat
  name_account : Pubkey
  owner : Pubkey
  nft_mint_account : Pubkey
  tld_house : Pubkey
deriving DecidableEq, Repr

/-- Constant `NftRecord::LEN` from `state/nft_record.rs`. -/
def NftRecord.LEN : Nat := 8 + 1 + 1 + 32 + 32 + 32 + 32 + 64

/-- Borsh decode of the `Tag` enum: one byte that must be 0, 1 or 2. -/
def decodeTagByte : List Nat → Option Tag
  | [0] => some Tag.Uninitialized
  | [1] => some Tag.ActiveRecord
  | [2] => some Tag.InactiveRecord
  | _ => none

/-- Borsh body of `NftRecord`: a one-byte enum tag (0, 1 or 2, otherwise a
format error), a one-byte bump, and four 32-byte keys. -/
def NftRecord.borshDeserialize (b : List Nat) : Option NftRecord :=
  (readExact 1 b).bind fun (tagByte, b) =>
  (decodeTagByte tagByte).bind fun tag =>
  (readExact 1 b).bind fun (bumpByte, b) =>
  (readExact 32 b).bind fun (name_account, b) =>
  (readExact 32 b).bind fun (owner, b) =>
  (readExact 32 b).bind fun (nft_mint_account, b) =>
  (readExact 32 b).bind fun (tld_house, _) =>
  some ⟨tag, leBytesToNat bumpByte, .ofBytes name_account,
    .ofBytes owner, .ofBytes nft_mint_account, .ofBytes tld_house⟩

/-- Function `NftRecord::from_account_info`: `&data[8..]` panics when the
buffer is shorter than the 8-byte discriminator; otherwise a borsh failure is
returned as an `Err`. -/
def NftRecord.from_account_info (data_vec : List Nat) : DecodeResult NftRecord :=
  if data_vec.length < 8 then .panicked
  else
    match NftRecord.borshDeserialize (data_vec.drop 8) with
    | some r => .ok r
    | none => .formatError

/-- The 45-day grace period of `lib.rs`:
`45 * 24 * 60 * 60 = 3,888,000` seconds. -/
def grace_period : Nat := 45 * 24 * 60 * 60

/-- The validity block shared verbatim by
`TldParser::get_name_record_from_domain_tld` (lines 314-325 of `lib.rs`) and
`TldParser::get_name_record_from_name_account` (lines 366-378): when
`expires_at > 0` and `time_now + grace_period > expires_at` the code sets
`is_valid := true`, and otherwise leaves the deserialized flag untouched. -/
def nameRecordGetterValidity (r : NameRecordHeader) (time_now : Nat) :
    NameRecordHeader :=
  if r.expires_at > 0 then
    if time_now + grace_period > r.expires_at then { r with is_valid := true }
    else r
  else r

/-- The validity block of `TldParser::get_owner_from_domain_tld` (lines
229-243 of `lib.rs`): when `expires_at > 0` and
`time_now + grace_period > expires_at` the record is marked invalid and its
owner zeroed to the default address; otherwise it is marked valid. -/
def ownerRecordValidity (r : NameRecordHeader) (time_now : Nat) :
    NameRecordHeader :=
  if r.expires_at > 0 then
    if time_now + grace_period > r.expires_at then
      { r with is_valid := false, owner := ByteStr.defaultKey }
    else { r with is_valid := true }
  else r

/-- The external world of `TldParser` (spec §6): the ledger reader
(`get_account_data`, and the token largest-accounts query used by the
`get_token_largest_accounts` helper, which returns entries carrying an
`address` string), the Solana SDK's `Pubkey::from_str`, the
`spl_token_2022` account unpacking (of which only the `owner` field is
read), and the wall clock (`SystemTime::now`, in seconds).  `none` from a
reader is a hard RPC failure, propagated by `?` in the source. -/
structure Env where
  getAccountData : Pubkey → Option (List Nat)
  getTokenLargestAccounts : Pubkey → Option (List String)
  fromStr : String → Option Pubkey
  unpackTokenOwner : List Nat → Option Pubkey
  timeNow : Nat

/-- Failure modes of the `TldParser` methods: a propagated RPC failure, a
propagated deserialization `Err`, or a Rust panic (`unwrap` on an empty
largest-holder list or an unparsable address, or a slice-index panic). -/
inductive TldError where
  | fetchFailed
  | decodeFailed
  | panicked
deriving DecidableEq, Repr

deriving instance DecidableEq for Except

/-- Lines 229-268 of `TldParser::get_owner_from_domain_tld`, starting from
the deserialized name record `r0`: re-evaluate validity (zeroing the owner
when invalid), derive the NFT-wrap-record address for `name_account_key`
under the suffix's name house, and if the owner equals it, follow the
indirection: fetch and decode the `NftRecord`, take the first of the largest
holders of its `nft_mint_account` (`first().unwrap()` panics on an empty
list, `Pubkey::from_str(..).unwrap()` panics on a bad address), fetch that
token account, and — only when the `spl_token_2022` unpacking succeeds
(`if let Ok`) — replace the owner by the unpacked `owner` field; when the
unpacking fails the wrap-record address itself is returned. -/
def resolve_owner (env : Env) (tld : String) (name_account_key : Pubkey)
    (r0 : NameRecordHeader) : Except TldError Pubkey :=
  let name_account := ownerRecordValidity r0 env.timeNow
  let owner := name_account.owner
  let tld_house_key := (find_tld_house tld).1
  let name_house_key := (find_name_house tld_house_key).1
  let nft_record_key := (find_nft_record name_account_key name_house_key).1
  if owner = nft_record_key then
    match env.getAccountData nft_record_key with
    | none => .error .fetchFailed
    | some nft_record_data_vec =>
      match NftRecord.from_account_info nft_record_data_vec with
      | .panicked => .error .panicked
      | .formatError => .error .decodeFailed
      | .ok nft_record =>
        match env.getTokenLargestAccounts nft_record.nft_mint_account with
        | none => .error .fetchFailed
        | some values =>
          match values.head? with
          | none => .error .panicked
          | some addr =>
            match env.fromStr addr with
            | none => .error .panicked
            | some associated_token_account =>
              match env.getAccountData associated_token_account with
              | none => .error .fetchFailed
              | some ata_data =>
                match env.unpackTokenOwner ata_data with
                | some unpacked_owner => .ok unpacked_owner
                | none => .ok owner
  else .ok owner

/-- Function `TldParser::get_owner_from_domain_tld` from `lib.rs`: split the
input (reading labels 0 and 1; fewer than two labels is an index panic),
derive the name account, fetch and decode its record, and resolve ownership
through `resolve_owner`. -/
def get_owner_from_domain_tld (env : Env) (domain_tld : String) :
    Except TldError Pubkey :=
  match splitOnDot domain_tld with
  | domain :: tldLabel :: _ =>
    let tld := "." ++ tldLabel
    let parent_name_account := get_name_parent_from_tld tld
    let name_account_key :=
      (find_name_account_from_name domain none (some parent_name_account)).1
    match env.getAccountData name_account_key with
    | none => .error .fetchFailed
    | some name_account_data =>
      match NameRecordHeader.deserialize_name_record name_account_data with
      | .panicked => .error .panicked
      | .formatError => .error .decodeFailed
      | .ok r => resolve_owner env tld name_account_key r
  | _ => .error .panicked

/-- Function `TldParser::get_name_record_from_domain_tld` from `lib.rs`:
derive the name account from labels 0 and 1, fetch and decode its record,
and apply the getter validity block. -/
def get_name_record_from_domain_tld (env : Env) (domain_tld : String) :
    Except TldError NameRecordHeader :=
  match splitOnDot domain_tld with
  | domain :: tldLabel :: _ =>
    let tld := "." ++ tldLabel
    let parent_name_account := get_name_parent_from_tld tld
    let name_account_key :=
      (find_name_account_from_name domain none (some parent_name_account)).1
    match env.getAccountData name_account_key with
    | none => .error .fetchFailed
    | some name_account_data =>
      match NameRecordHeader.deserialize_name_record name_account_data with
      | .panicked => .error .panicked
      | .formatError => .error .decodeFailed
      | .ok r => .ok (nameRecordGetterValidity r env.timeNow)
  | _ => .error .panicked

/-- Function `TldParser::get_name_record_from_name_account` from `lib.rs`:
fetch and decode the record at the given address and apply the getter
validity block. -/
def get_name_record_from_name_account (env : Env) (name_account : Pubkey) :
    Except TldError NameRecordHeader :=
  match env.getAccountData name_account with
  | none => .error .fetchFailed
  | some name_account_data =>
    match NameRecordHeader.deserialize_name_record name_account_data with
    | .panicked => .error .panicked
    | .formatError => .error .decodeFailed
    | .ok r => .ok (nameRecordGetterValidity r env.timeNow)

/-- The inline reverse-lookup decode of `TldParser::reverse_lookup_name_account`
(lines 532-537 of `lib.rs`): slice the fetched buffer from the literal offset
200 to its end and decode it as UTF-8 (`unwrap` panics when invalid). -/
def reverse_lookup_inline_decode (reverse_lookup_data : List Nat) :
    DecodeResult (List Nat) :=
  let domain_len_start := 200
  if reverse_lookup_data.length < domain_len_start then .panicked
  else
    let p := reverse_lookup_data.drop domain_len_start
    if utf8Valid p then .ok p else .panicked

/-- The NFT-wrap-record address against which `get_owner_from_domain_tld`
compares the record's owner: the `find_nft_record` derivation for the name
account under the suffix's name house. -/
def wrap_record_key (tld : String) (name_account_key : Pubkey) : Pubkey :=
  (find_nft_record name_account_key (find_name_house (find_tld_house tld).1).1).1

/-- Concrete name-account key used by the concrete evaluations below. -/
def wName : Pubkey := .ofBase58 "nameAccount"

/-- The wrap-record address of `wName` under the `".abc"` suffix. -/
def wNftRecordKey : Pubkey := wrap_record_key ".abc" wName

/-- A 138-byte buffer (8-byte discriminator plus the 130-byte borsh body)
that decodes to a well-formed `NftRecord` with tag 0 and all-zero fields. -/
def wNftBytes : List Nat := List.replicate 138 0

/-- The `NftRecord` decoded from `wNftBytes`. -/
def wNftDecoded : NftRecord :=
  ⟨.Uninitialized, 0, .ofBytes (List.replicate 32 0), .ofBytes (List.replicate 32 0),
    .ofBytes (List.replicate 32 0), .ofBytes (List.replicate 32 0)⟩

/-- A never-expiring name record whose owner is the derived wrap-record
address (the wrapped-domain scenario). -/
def wRecordWrapped : NameRecordHeader :=
  { parent_name := ByteStr.defaultKey, owner := wNftRecordKey,
    nclass := ByteStr.defaultKey, expires_at := 0, is_valid := true }

/-- A never-expiring name record with a direct (non-wrap) owner. -/
def wRecordUnwrapped : NameRecordHeader :=
  { parent_name := ByteStr.defaultKey, owner := .ofBase58 "directOwner",
    nclass := ByteStr.defaultKey, expires_at := 0, is_valid := true }

/-- Environment whose ledger serves, at every address, a 113-byte name
record with `expires_at = 1` and a stored `is_valid` byte of 0. -/
def envExpiredStoredInvalid : Env :=
  { getAccountData := fun _ => some (List.replicate 104 0 ++ [1, 0, 0, 0, 0, 0, 0, 0, 0]),
    getTokenLargestAccounts := fun _ => none, fromStr := fun _ => none,
    unpackTokenOwner := fun _ => none, timeNow := 0 }

/-- Environment whose ledger serves, at every address, a 113-byte name
record with `expires_at = 3888001` (one second beyond the grace window as
seen from time 0) and a stored `is_valid` byte of 0. -/
def envLiveStoredInvalid : Env :=
  { getAccountData := fun _ => some (List.replicate 104 0 ++ [129, 83, 59, 0, 0, 0, 0, 0, 0]),
    getTokenLargestAccounts := fun _ => none, fromStr := fun _ => none,
    unpackTokenOwner := fun _ => none, timeNow := 0 }

/-- Environment in which every account fetch fails. -/
def envNoNft : Env :=
  { getAccountData := fun _ => none, getTokenLargestAccounts := fun _ => none,
    fromStr := fun _ => none, unpackTokenOwner := fun _ => none, timeNow := 0 }

/-- Environment serving an 8-byte buffer (empty borsh body) at every address,
so `NftRecord` deserialization fails cleanly. -/
def envBadNft : Env :=
  { getAccountData := fun _ => some [0, 0, 0, 0, 0, 0, 0, 0],
    getTokenLargestAccounts := fun _ => none, fromStr := fun _ => none,
    unpackTokenOwner := fun _ => none, timeNow := 0 }

/-- Environment serving a good wrap record but failing the largest-holders
query. -/
def envNoHolders : Env :=
  { getAccountData := fun _ => some wNftBytes, getTokenLargestAccounts := fun _ => none,
    fromStr := fun _ => none, unpackTokenOwner := fun _ => none, timeNow := 0 }

/-- Environment serving a good wrap record and holder list but failing the
fetch of the holder's token account. -/
def envNoAta : Env :=
  { getAccountData := fun k => if k = ByteStr.ofBase58 "holderKey" then none else some wNftBytes,
    getTokenLargestAccounts := fun _ => some ["holder"],
    fromStr := fun _ => some (.ofBase58 "holderKey"),
    unpackTokenOwner := fun _ => none, timeNow := 0 }

/-- Environment serving a good wrap record but an empty largest-holders
list. -/
def envEmptyHolders : Env :=
  { getAccountData := fun _ => some wNftBytes,
    getTokenLargestAccounts := fun _ => some [],
    fromStr := fun _ => none, unpackTokenOwner := fun _ => none, timeNow := 0 }

/-- Environment in which every fetch succeeds but the token-account
unpacking fails. -/
def envUnpackFails : Env :=
  { getAccountData := fun _ => some wNftBytes,
    getTokenLargestAccounts := fun _ => some ["holder"],
    fromStr := fun _ => some (.ofBase58 "holderKey"),
    unpackTokenOwner := fun _ => none, timeNow := 0 }

/-- Environment in which the whole wrap-resolution pipeline succeeds and the
unpacked token-account owner is `"trueOwner"`. -/
def envWrapOk : Env :=
  { getAccountData := fun _ => some wNftBytes,
    getTokenLargestAccounts := fun _ => some ["holder"],
    fromStr := fun _ => some (.ofBase58 "holderKey"),
    unpackTokenOwner := fun _ => some (.ofBase58 "trueOwner"), timeNow := 0 }

theorem string_data_append (a b : String) : (a ++ b).data = a.data ++ b.data := rfl

theorem string_append_left_cancel {a x y : String} (h : a ++ x = a ++ y) : x = y := by
  have h2 : a.data ++ x.data = a.data ++ y.data := congrArg String.data h
  have h4 := List.append_cancel_left h2
  cases x with
  | mk xd =>
    cases y with
    | mk yd => exact congrArg String.mk h4

theorem one_zero_append_ne (s : String) : ("1" ++ s : String) ≠ "0" ++ s := by
  intro h
  have h2 : ('1' :: s.data) = ('0' :: s.data) := congrArg String.data h
  injection h2 with h3 _
  exact absurd h3 (by decide)

theorem readExact_eq_some (n : Nat) (b : List Nat) (h : n ≤ b.length) :
    readExact n b = some (b.take n, b.drop n) := by
  simp [readExact, h]

theorem readExact_eq_none (n : Nat) (b : List Nat) (h : b.length < n) :
    readExact n b = none := by
  simp only [readExact, ite_eq_right_iff]
  intro hc
  omega

theorem nrh_borsh_none_of_short (b : List Nat) (hb : b.length < 105) :
    NameRecordHeader.borshDeserialize b = none := by
  simp only [NameRecordHeader.borshDeserialize]
  by_cases h1 : 32 ≤ b.length
  · simp only [readExact_eq_some _ _ h1, Option.some_bind]
    by_cases h2 : 32 ≤ (b.drop 32).length
    · simp only [readExact_eq_some _ _ h2, Option.some_bind]
      by_cases h3 : 32 ≤ ((b.drop 32).drop 32).length
      · simp only [readExact_eq_some _ _ h3, Option.some_bind]
        by_cases h4 : 8 ≤ (((b.drop 32).drop 32).drop 32).length
        · simp only [readExact_eq_some _ _ h4, Option.some_bind]
          by_cases h5 : 1 ≤ ((((b.drop 32).drop 32).drop 32).drop 8).length
          · exfalso
            simp only [List.length_drop] at h2 h3 h4 h5
            omega
          · rw [readExact_eq_none _ _ (Nat.not_le.mp h5)]; rfl
        · rw [readExact_eq_none _ _ (Nat.not_le.mp h4)]; rfl
      · rw [readExact_eq_none _ _ (Nat.not_le.mp h3)]; rfl
    · rw [readExact_eq_none _ _ (Nat.not_le.mp h2)]; rfl
  · rw [readExact_eq_none _ _ (Nat.not_le.mp h1)]; rfl

theorem nft_borsh_none_of_short (b : List Nat) (hb : b.length < 130) :
    NftRecord.borshDeserialize b = none := by
  simp only [NftRecord.borshDeserialize]
  by_cases h1 : 1 ≤ b.length
  · simp only [readExact_eq_some _ _ h1, Option.some_bind]
    rcases hdt : decodeTagByte (b.take 1) with _ | tag
    · rfl
    · simp only [hdt, Option.some_bind]
      by_cases h2 : 1 ≤ (b.drop 1).length
      · simp only [readExact_eq_some _ _ h2, Option.some_bind]
        by_cases h3 : 32 ≤ ((b.drop 1).drop 1).length
        · simp only [readExact_eq_some _ _ h3, Option.some_bind]
          by_cases h4 : 32 ≤ (((b.drop 1).drop 1).drop 32).length
          · simp only [readExact_eq_some _ _ h4, Option.some_bind]
            by_cases h5 : 32 ≤ ((((b.drop 1).drop 1).drop 32).drop 32).length
            · simp only [readExact_eq_some _ _ h5, Option.some_bind]
              by_cases h6 : 32 ≤ (((((b.drop 1).drop 1).drop 32).drop 32).drop 32).length
              · exfalso
                simp only [List.length_drop] at h2 h3 h4 h5 h6
                omega
              · rw [readExact_eq_none _ _ (Nat.not_le.mp h6)]; rfl
            · rw [readExact_eq_none _ _ (Nat.not_le.mp h5)]; rfl
          · rw [readExact_eq_none _ _ (Nat.not_le.mp h4)]; rfl
        · rw [readExact_eq_none _ _ (Nat.not_le.mp h3)]; rfl
      · rw [readExact_eq_none _ _ (Nat.not_le.mp h2)]; rfl
  · rw [readExact_eq_none _ _ (Nat.not_le.mp h1)]; rfl

/-- C1: the claim says the name-record getters recompute `is_valid` so that,
for `expires_at > 0`, it is true exactly when `now + 3,888,000 ≤ expires_at`.
The code does the opposite: both getters set `is_valid := true` exactly in
the expired branch (`now + grace > expires_at`) and otherwise return the
stored flag unchanged.  Concretely: a record with `expires_at = 1` read at
time 0 comes back with `is_valid = true` although `0 + grace_period ≤ 1`
fails, and a record with `expires_at = 3,888,001` and a stored flag of 0
read at time 0 comes back with `is_valid = false` although
`0 + grace_period ≤ 3,888,001` holds. -/
theorem C1_getter_validity_code_bug :
    ((get_name_record_from_domain_tld envExpiredStoredInvalid "miester.abc").map
        (fun r => r.expires_at) = .ok 1
      ∧ (get_name_record_from_domain_tld envExpiredStoredInvalid "miester.abc").map
        (fun r => r.is_valid) = .ok true
      ∧ ¬ (envExpiredStoredInvalid.timeNow + grace_period ≤ 1))
    ∧ (get_name_record_from_name_account envExpiredStoredInvalid (.ofBase58 "acct")).map
        (fun r => r.is_valid) = .ok true
    ∧ ((get_name_record_from_domain_tld envLiveStoredInvalid "miester.abc").map
        (fun r => r.is_valid) = .ok false
      ∧ envLiveStoredInvalid.timeNow + grace_period ≤ 3888001)
    ∧ (get_name_record_from_name_account envLiveStoredInvalid (.ofBase58 "acct")).map
        (fun r => r.is_valid) = .ok false := by
  decide

/-- C5: in the ownership path's validity block, a record with
`expires_at = T > 0` evaluated at `now = T - 3,888,000` is valid with its
stored owner kept, and at `now = T - 3,888,000 + 1` is invalid with
`is_valid` set false and the owner zeroed to the default address — an exact
boundary with no off-by-one. -/
theorem C5_owner_validity_boundary (r : NameRecordHeader)
    (h : grace_period ≤ r.expires_at) :
    (ownerRecordValidity r (r.expires_at - grace_period)).is_valid = true ∧
    (ownerRecordValidity r (r.expires_at - grace_period)).owner = r.owner ∧
    (ownerRecordValidity r (r.expires_at - grace_period + 1)).is_valid = false ∧
    (ownerRecordValidity r (r.expires_at - grace_period + 1)).owner = ByteStr.defaultKey := by
  have hpos : 0 < r.expires_at := lt_of_lt_of_le (by decide) h
  have hA : ¬ (r.expires_at - grace_period + grace_period > r.expires_at) := by omega
  have hB : r.expires_at - grace_period + 1 + grace_period > r.expires_at := by omega
  simp [ownerRecordValidity, hpos, hA, hB]

theorem C5_owner_validity_boundary_witness :
    grace_period ≤ (3888000 : Nat) ∧
    ((ownerRecordValidity
        ⟨ByteStr.defaultKey, .ofBase58 "o", ByteStr.defaultKey, 3888000, false⟩
        (3888000 - grace_period)).is_valid = true ∧
      (ownerRecordValidity
        ⟨ByteStr.defaultKey, .ofBase58 "o", ByteStr.defaultKey, 3888000, false⟩
        (3888000 - grace_period)).owner = .ofBase58 "o" ∧
      (ownerRecordValidity
        ⟨ByteStr.defaultKey, .ofBase58 "o", ByteStr.defaultKey, 3888000, false⟩
        (3888000 - grace_period + 1)).is_valid = false ∧
      (ownerRecordValidity
        ⟨ByteStr.defaultKey, .ofBase58 "o", ByteStr.defaultKey, 3888000, false⟩
        (3888000 - grace_period + 1)).owner = ByteStr.defaultKey) :=
  ⟨by decide,
    C5_owner_validity_boundary
      ⟨ByteStr.defaultKey, .ofBase58 "o", ByteStr.defaultKey, 3888000, false⟩
      (by decide)⟩

/-- C7 counterexample: the claim says every decoder rejects a too-short
slice with a format error; but on the empty slice
`deserialize_name_record` panics (`&src[8..]` is out of range) instead of
returning an `Err`. -/
theorem C7_counterexample :
    NameRecordHeader.deserialize_name_record [] = .panicked ∧
    NameRecordHeader.deserialize_name_record [] ≠ .formatError := by
  decide

/-- C7 (amended): slices of length at least 8 but shorter than the full
fixed-width body make `deserialize_name_record` (113 bytes needed) and
`NftRecord::from_account_info` (138 bytes needed) fail with a format error;
slices shorter than the 8-byte discriminator make both panic; and
`deserialize_data_string` panics on every slice shorter than `LEN + 4`
instead of ever returning a format error. -/
theorem C7_short_input_behaviour :
    (∀ src : List Nat, src.length < 8 →
      NameRecordHeader.deserialize_name_record src = .panicked)
    ∧ (∀ src : List Nat, 8 ≤ src.length → src.length < 113 →
      NameRecordHeader.deserialize_name_record src = .formatError)
    ∧ (∀ src : List Nat, src.length < 8 →
      NftRecord.from_account_info src = .panicked)
    ∧ (∀ src : List Nat, 8 ≤ src.length → src.length < 138 →
      NftRecord.from_account_info src = .formatError)
    ∧ (∀ src : List Nat, src.length < 204 →
      NameRecordHeader.deserialize_data_string src = .panicked) := by
  refine ⟨?_, ?_, ?_, ?_, ?_⟩
  · intro src h
    simp [NameRecordHeader.deserialize_name_record, h]
  · intro src h8 h
    have hnone : NameRecordHeader.borshDeserialize (src.drop 8) = none :=
      nrh_borsh_none_of_short (src.drop 8) (by simp [List.length_drop]; omega)
    simp [NameRecordHeader.deserialize_name_record, Nat.not_lt.mpr h8, hnone]
  · intro src h
    simp [NftRecord.from_account_info, h]
  · intro src h8 h
    have hnone : NftRecord.borshDeserialize (src.drop 8) = none :=
      nft_borsh_none_of_short (src.drop 8) (by simp [List.length_drop]; omega)
    simp [NftRecord.from_account_info, Nat.not_lt.mpr h8, hnone]
  · intro src h
    by_cases h1 : src.length < NameRecordHeader.LEN
    · simp [NameRecordHeader.deserialize_data_string, h1]
    · have h2 : src.length - NameRecordHeader.LEN < 4 := by
        simp only [NameRecordHeader.LEN, NameRecordHeader.size_of] at h1 ⊢
        omega
      simp [NameRecordHeader.deserialize_data_string, h1, h2, List.length_drop]

theorem C7_short_input_behaviour_witness :
    NameRecordHeader.deserialize_name_record [0, 0, 0] = .panicked ∧
    NameRecordHeader.deserialize_name_record (List.replicate 8 0) = .formatError ∧
    NftRecord.from_account_info [0, 0, 0] = .panicked ∧
    NftRecord.from_account_info (List.replicate 8 0) = .formatError ∧
    NameRecordHeader.deserialize_data_string (List.replicate 100 0) = .panicked :=
  ⟨C7_short_input_behaviour.1 [0, 0, 0] (by decide),
    C7_short_input_behaviour.2.1 (List.replicate 8 0) (by decide) (by decide),
    C7_short_input_behaviour.2.2.1 [0, 0, 0] (by decide),
    C7_short_input_behaviour.2.2.2.1 (List.replicate 8 0) (by decide) (by decide),
    C7_short_input_behaviour.2.2.2.2 (List.replicate 100 0) (by decide)⟩

/-- C10: because `NameRecordHeader::LEN = 8 + size_of::<NameRecordHeader>()
+ 80` evaluates to 200, `deserialize_reverse_lookup_domain_name` and the
inline decode of `reverse_lookup_name_account` (which slices from the
literal offset 200 to the end of the buffer) agree on every buffer of
length at least 200. -/
theorem C10_reverse_decode_paths_agree (src : List Nat) (h : 200 ≤ src.length) :
    NameRecordHeader.LEN = 200 ∧
    NameRecordHeader.deserialize_reverse_lookup_domain_name src =
      reverse_lookup_inline_decode src :=
  ⟨rfl, rfl⟩

set_option maxRecDepth 4000 in
theorem C10_reverse_decode_paths_agree_witness :
    200 ≤ (List.replicate 200 0 : List Nat).length ∧
    (NameRecordHeader.LEN = 200 ∧
      NameRecordHeader.deserialize_reverse_lookup_domain_name (List.replicate 200 0) =
        reverse_lookup_inline_decode (List.replicate 200 0)) :=
  ⟨by simp, C10_reverse_decode_paths_agree (List.replicate 200 0) (by simp)⟩

theorem name_account_ne_of_hash_preimage_ne (n1 n2 : String) (p : Pubkey)
    (hne : HASH_PREFIX_STRING ++ n1 ≠ HASH_PREFIX_STRING ++ n2) :
    (_get_name_account n1 (some p)).1 ≠ (_get_name_account n2 (some p)).1 := by
  intro heq
  apply hne
  have heq2 : ByteStr.pda
      (ByteStr.seedCons (ByteStr.hashOf (HASH_PREFIX_STRING ++ n1))
        (ByteStr.seedCons ByteStr.defaultKey (ByteStr.seedCons p ByteStr.seedNil)))
      ANS_PROGRAM_ID =
    ByteStr.pda
      (ByteStr.seedCons (ByteStr.hashOf (HASH_PREFIX_STRING ++ n2))
        (ByteStr.seedCons ByteStr.defaultKey (ByteStr.seedCons p ByteStr.seedNil)))
      ANS_PROGRAM_ID := heq
  injection heq2 with hseeds hprog
  injection hseeds with hhash hrest
  injection hhash with hpre

/-- C2 counterexample: the claim says a four-label input with `record = false`
fails with `UnsupportedDepth` and returns no derived result; but
`get_domain_key "multi.sub.name.tld" false` does not fail — it falls through
to the plain-domain tail and returns the result derived from labels 0 and 1. -/
theorem C2_counterexample :
    get_domain_key "multi.sub.name.tld" false ≠ .error .unsupportedDepth ∧
    get_domain_key "multi.sub.name.tld" false =
      .ok (regular_domain_result "multi" "sub") := by
  decide

/-- C2 (amended): a four-label input with `record = false` is not rejected:
`get_domain_key` falls through to the plain-domain tail, treating label 0 as
the domain and label 1 as the suffix, and returns the corresponding derived
`DomainKeyResult` (with `is_sub = false`, `parent = none`,
`is_sub_record = false`); the four-level shape is only interpreted as a
record subdomain when `record = true`. -/
theorem C2_four_labels_without_record_falls_through
    (s a b c d : String) (h : splitOnDot s = [a, b, c, d]) :
    get_domain_key s false = .ok (regular_domain_result a b) := by
  simp [get_domain_key, h]

theorem C2_four_labels_without_record_falls_through_witness :
    splitOnDot "multi.sub.name.tld" = ["multi", "sub", "name", "tld"] ∧
    get_domain_key "multi.sub.name.tld" false =
      .ok (regular_domain_result "multi" "sub") :=
  ⟨by decide,
    C2_four_labels_without_record_falls_through "multi.sub.name.tld"
      "multi" "sub" "name" "tld" (by decide)⟩

/-- C6: on a three-label input `sub.name.tld`, `get_domain_key` hashes
`"0" ++ sub` when `record = false` and `"1" ++ sub` when `record = true`
(the `hashed` field is the fixed-prefix hash of that string), derives the
leaf under the plain-domain address of `name.tld` as parent with no class,
returns `is_sub = true`, `parent` equal to the domain address and
`is_sub_record = false`, and the two values of `record` yield different leaf
addresses for identical other inputs. -/
theorem C6_subdomain_shape (s sub domain tldLabel : String) (record : Bool)
    (h : splitOnDot s = [sub, domain, tldLabel]) :
    get_domain_key s record =
      .ok { pubkey := (_get_name_account ((if record then "1" else "0") ++ sub)
              (some (_get_name_account domain
                (some (_get_name_account ("." ++ tldLabel) none).1)).1)).1,
            hashed := get_hashed_name ((if record then "1" else "0") ++ sub),
            is_sub := true,
            parent := some (_get_name_account domain
              (some (_get_name_account ("." ++ tldLabel) none).1)).1,
            is_sub_record := false } ∧
    (_get_name_account ("1" ++ sub)
        (some (_get_name_account domain
          (some (_get_name_account ("." ++ tldLabel) none).1)).1)).1 ≠
      (_get_name_account ("0" ++ sub)
        (some (_get_name_account domain
          (some (_get_name_account ("." ++ tldLabel) none).1)).1)).1 := by
  constructor
  · cases record <;> simp [get_domain_key, h, _get_name_account]
  · exact name_account_ne_of_hash_preimage_ne ("1" ++ sub) ("0" ++ sub) _
      (fun hp => one_zero_append_ne sub (string_append_left_cancel hp))

theorem C6_subdomain_shape_witness :
    splitOnDot "sub.name.tld" = ["sub", "name", "tld"] ∧
    (get_domain_key "sub.name.tld" true =
        .ok { pubkey := (_get_name_account ((if true then "1" else "0") ++ "sub")
                (some (_get_name_account "name"
                  (some (_get_name_account ("." ++ "tld") none).1)).1)).1,
              hashed := get_hashed_name ((if true then "1" else "0") ++ "sub"),
              is_sub := true,
              parent := some (_get_name_account "name"
                (some (_get_name_account ("." ++ "tld") none).1)).1,
              is_sub_record := false } ∧
      (_get_name_account ("1" ++ "sub")
          (some (_get_name_account "name"
            (some (_get_name_account ("." ++ "tld") none).1)).1)).1 ≠
        (_get_name_account ("0" ++ "sub")
          (some (_get_name_account "name"
            (some (_get_name_account ("." ++ "tld") none).1)).1)).1) :=
  ⟨by decide, C6_subdomain_shape "sub.name.tld" "sub" "name" "tld" true (by decide)⟩

/-- C8: every input whose dot-split has five or more labels is rejected with
the `UnsupportedDepth` failure for both values of `record`; `get_domain_key`
is a pure function of the string, so the rejection involves no ledger
access. -/
theorem C8_five_or_more_labels_rejected (s : String) (record : Bool)
    (h : 4 < (splitOnDot s).length) :
    get_domain_key s record = .error .unsupportedDepth := by
  rcases hl : splitOnDot s with _ | ⟨a, _ | ⟨b, _ | ⟨c, _ | ⟨d, _ | ⟨e, t⟩⟩⟩⟩⟩ <;>
    rw [hl] at h <;>
    simp only [List.length_nil, List.length_cons] at h <;>
    first
      | omega
      | simp [get_domain_key, hl]

theorem C8_five_or_more_labels_rejected_witness :
    4 < (splitOnDot "a.b.c.d.e").length ∧
    get_domain_key "a.b.c.d.e" false = .error .unsupportedDepth :=
  ⟨by decide, C8_five_or_more_labels_rejected "a.b.c.d.e" false (by decide)⟩

/-- C9: on a single-label input (no `'.'`, so the split has exactly one
element), `get_domain_key` reads `domain_tld_split[1]` in the fall-through
tail and panics with an out-of-bounds index (modelled by the
`indexOutOfBounds` failure) for both values of `record`, instead of
returning an error value: the function is not total over arbitrary input
strings. -/
theorem C9_single_label_index_panic (s : String) (record : Bool)
    (h : (splitOnDot s).length = 1) :
    get_domain_key s record = .error .indexOutOfBounds := by
  rcases hl : splitOnDot s with _ | ⟨a, _ | ⟨b, t⟩⟩ <;>
    rw [hl] at h <;>
    simp only [List.length_nil, List.length_cons] at h <;>
    first
      | omega
      | simp [get_domain_key, hl]

theorem C9_single_label_index_panic_witness :
    (splitOnDot "nodot").length = 1 ∧
    get_domain_key "nodot" true = .error .indexOutOfBounds :=
  ⟨by decide, C9_single_label_index_panic "nodot" true (by decide)⟩

/-- C3 counterexample: the claim says that when the largest holder's token
account cannot be decoded the call fails with an error and never returns the
wrap-record's own address; but with every fetch succeeding and the
`spl_token_2022` unpacking failing, `resolve_owner` succeeds and returns
exactly the wrap-record address (the raw `owner` field). -/
theorem C3_counterexample :
    resolve_owner envUnpackFails ".abc" wName wRecordWrapped =
      .ok (wrap_record_key ".abc" wName) := by
  decide

/-- C3 (amended): when the wrap record or the largest-holder list cannot be
fetched, or the wrap-record bytes fail to deserialize, or the holder's token
account cannot be fetched, the call fails with an error (an empty holder
list is an `unwrap` panic rather than an error return); but when the
holder's token account bytes cannot be unpacked, the call succeeds and
returns the wrap-record's own address as the owner. -/
theorem C3_wrap_error_paths :
    (∀ (env : Env) (tld : String) (key : Pubkey) (r : NameRecordHeader),
      (ownerRecordValidity r env.timeNow).owner = wrap_record_key tld key →
      env.getAccountData (wrap_record_key tld key) = none →
      resolve_owner env tld key r = .error .fetchFailed)
    ∧ (∀ (env : Env) (tld : String) (key : Pubkey) (r : NameRecordHeader)
        (bs : List Nat),
      (ownerRecordValidity r env.timeNow).owner = wrap_record_key tld key →
      env.getAccountData (wrap_record_key tld key) = some bs →
      NftRecord.from_account_info bs = .formatError →
      resolve_owner env tld key r = .error .decodeFailed)
    ∧ (∀ (env : Env) (tld : String) (key : Pubkey) (r : NameRecordHeader)
        (bs : List Nat) (nft : NftRecord),
      (ownerRecordValidity r env.timeNow).owner = wrap_record_key tld key →
      env.getAccountData (wrap_record_key tld key) = some bs →
      NftRecord.from_account_info bs = .ok nft →
      env.getTokenLargestAccounts nft.nft_mint_account = none →
      resolve_owner env tld key r = .error .fetchFailed)
    ∧ (∀ (env : Env) (tld : String) (key : Pubkey) (r : NameRecordHeader)
        (bs : List Nat) (nft : NftRecord) (values : List String) (addr : String)
        (ata : Pubkey),
      (ownerRecordValidity r env.timeNow).owner = wrap_record_key tld key →
      env.getAccountData (wrap_record_key tld key) = some bs →
      NftRecord.from_account_info bs = .ok nft →
      env.getTokenLargestAccounts nft.nft_mint_account = some values →
      values.head? = some addr →
      env.fromStr addr = some ata →
      env.getAccountData ata = none →
      resolve_owner env tld key r = .error .fetchFailed)
    ∧ (∀ (env : Env) (tld : String) (key : Pubkey) (r : NameRecordHeader)
        (bs : List Nat) (nft : NftRecord),
      (ownerRecordValidity r env.timeNow).owner = wrap_record_key tld key →
      env.getAccountData (wrap_record_key tld key) = some bs →
      NftRecord.from_account_info bs = .ok nft →
      env.getTokenLargestAccounts nft.nft_mint_account = some [] →
      resolve_owner env tld key r = .error .panicked)
    ∧ (∀ (env : Env) (tld : String) (key : Pubkey) (r : NameRecordHeader)
        (bs : List Nat) (nft : NftRecord) (values : List String) (addr : String)
        (ata : Pubkey) (ataBytes : List Nat),
      (ownerRecordValidity r env.timeNow).owner = wrap_record_key tld key →
      env.getAccountData (wrap_record_key tld key) = some bs →
      NftRecord.from_account_info bs = .ok nft →
      env.getTokenLargestAccounts nft.nft_mint_account = some values →
      values.head? = some addr →
      env.fromStr addr = some ata →
      env.getAccountData ata = some ataBytes →
      env.unpackTokenOwner ataBytes = none →
      resolve_owner env tld key r = .ok (wrap_record_key tld key)) := by
  refine ⟨?_, ?_, ?_, ?_, ?_, ?_⟩
  · intro env tld key r hw hf
    simp only [wrap_record_key] at hw hf
    simp [resolve_owner, hw, hf]
  · intro env tld key r bs hw hf hdec
    simp only [wrap_record_key] at hw hf
    simp [resolve_owner, hw, hf, hdec]
  · intro env tld key r bs nft hw hf hdec hvals
    simp only [wrap_record_key] at hw hf
    simp [resolve_owner, hw, hf, hdec, hvals]
  · intro env tld key r bs nft values addr ata hw hf hdec hvals hhead hstr hata
    simp only [wrap_record_key] at hw hf
    simp [resolve_owner, hw, hf, hdec, hvals, hhead, hstr, hata]
  · intro env tld key r bs nft hw hf hdec hvals
    simp only [wrap_record_key] at hw hf
    simp [resolve_owner, hw, hf, hdec, hvals]
  · intro env tld key r bs nft values addr ata ataBytes hw hf hdec hvals hhead hstr hata hunp
    simp only [wrap_record_key] at hw hf
    simp [resolve_owner, wrap_record_key, hw, hf, hdec, hvals, hhead, hstr, hata, hunp]

theorem C3_wrap_error_paths_witness :
    resolve_owner envNoNft ".abc" wName wRecordWrapped = .error .fetchFailed ∧
    resolve_owner envBadNft ".abc" wName wRecordWrapped = .error .decodeFailed ∧
    resolve_owner envNoHolders ".abc" wName wRecordWrapped = .error .fetchFailed ∧
    resolve_owner envNoAta ".abc" wName wRecordWrapped = .error .fetchFailed ∧
    resolve_owner envEmptyHolders ".abc" wName wRecordWrapped = .error .panicked ∧
    resolve_owner envUnpackFails ".abc" wName wRecordWrapped =
      .ok (wrap_record_key ".abc" wName) :=
  ⟨C3_wrap_error_paths.1 envNoNft ".abc" wName wRecordWrapped rfl rfl,
    C3_wrap_error_paths.2.1 envBadNft ".abc" wName wRecordWrapped
      [0, 0, 0, 0, 0, 0, 0, 0] rfl rfl rfl,
    C3_wrap_error_paths.2.2.1 envNoHolders ".abc" wName wRecordWrapped
      wNftBytes wNftDecoded rfl rfl rfl rfl,
    C3_wrap_error_paths.2.2.2.1 envNoAta ".abc" wName wRecordWrapped
      wNftBytes wNftDecoded ["holder"] "holder" (ByteStr.ofBase58 "holderKey")
      rfl rfl rfl rfl rfl rfl rfl,
    C3_wrap_error_paths.2.2.2.2.1 envEmptyHolders ".abc" wName wRecordWrapped
      wNftBytes wNftDecoded rfl rfl rfl rfl,
    C3_wrap_error_paths.2.2.2.2.2 envUnpackFails ".abc" wName wRecordWrapped
      wNftBytes wNftDecoded ["holder"] "holder" (ByteStr.ofBase58 "holderKey")
      wNftBytes rfl rfl rfl rfl rfl rfl rfl rfl⟩

/-- C4: when the (validity-adjusted) record owner equals the wrap-record
address derived from the name account and the suffix's name house (seeds
`"nft_record"`, name house, name account, under the name-house program), the
returned owner is the owner unpacked from the token account of the first
largest holder of the wrap record's `nft_mint_account`, not the wrap-record
address itself; when the owner differs from that derived address, the
record's owner is returned as-is. -/
theorem C4_wrap_resolution :
    (∀ (env : Env) (tld : String) (key : Pubkey) (r : NameRecordHeader)
        (bs : List Nat) (nft : NftRecord) (values : List String) (addr : String)
        (ata : Pubkey) (ataBytes : List Nat) (o : Pubkey),
      (ownerRecordValidity r env.timeNow).owner = wrap_record_key tld key →
      env.getAccountData (wrap_record_key tld key) = some bs →
      NftRecord.from_account_info bs = .ok nft →
      env.getTokenLargestAccounts nft.nft_mint_account = some values →
      values.head? = some addr →
      env.fromStr addr = some ata →
      env.getAccountData ata = some ataBytes →
      env.unpackTokenOwner ataBytes = some o →
      resolve_owner env tld key r = .ok o)
    ∧ (∀ (env : Env) (tld : String) (key : Pubkey) (r : NameRecordHeader),
      (ownerRecordValidity r env.timeNow).owner ≠ wrap_record_key tld key →
      resolve_owner env tld key r = .ok (ownerRecordValidity r env.timeNow).owner) := by
  constructor
  · intro env tld key r bs nft values addr ata ataBytes o hw hf hdec hvals hhead hstr hata hunp
    simp only [wrap_record_key] at hw hf
    simp [resolve_owner, hw, hf, hdec, hvals, hhead, hstr, hata, hunp]
  · intro env tld key r hne
    simp only [wrap_record_key] at hne
    simp [resolve_owner, hne]

theorem C4_wrap_resolution_witness :
    resolve_owner envWrapOk ".abc" wName wRecordWrapped =
      .ok (ByteStr.ofBase58 "trueOwner") ∧
    resolve_owner envWrapOk ".abc" wName wRecordUnwrapped =
      .ok (ByteStr.ofBase58 "directOwner") :=
  ⟨C4_wrap_resolution.1 envWrapOk ".abc" wName wRecordWrapped
      wNftBytes wNftDecoded ["holder"] "holder" (ByteStr.ofBase58 "holderKey")
      wNftBytes (ByteStr.ofBase58 "trueOwner") rfl rfl rfl rfl rfl rfl rfl rfl,
    C4_wrap_resolution.2 envWrapOk ".abc" wName wRecordUnwrapped (by decide)⟩
